import Mathlib

/-!
Verification development for the docQuest document-ingestion pipeline.

The Python sources are shallowly embedded: pure helpers become Lean
functions, geometry is modelled over the rationals, external HTTP calls
are modelled by an oracle giving the outcome of each request, and Python
exceptions become `Except` values.  Machine-level concerns (actual float
rounding, wall-clock sleeping) are abstracted: delays are recorded as the
list of sleep durations the code would request.
-/

set_option linter.unusedVariables false

namespace DocQuest

/-! ### Python string primitives

Models of the Python `str.split()` / `str.strip()` / `' '.join(...)`
operations used by the pipeline, working on `List Char`. -/

/-- The space character used by the join in `remove_stopwords_and_blanks`. -/
def spaceChar : Char := Char.ofNat 32

/-- Accumulator-based model of Python `str.split()` (split on whitespace
runs, dropping empty pieces).  `acc` holds the current word reversed. -/
def pyWordsAux : List Char → List Char → List (List Char)
  | acc, [] => if acc = [] then [] else [acc.reverse]
  | acc, c :: cs =>
    if c.isWhitespace then
      if acc = [] then pyWordsAux [] cs else acc.reverse :: pyWordsAux [] cs
    else pyWordsAux (c :: acc) cs

/-- Python `s.split()` with no separator argument. -/
def pyWords (s : List Char) : List (List Char) := pyWordsAux [] s

/-- Python `' '.join(ws)`: intercalate a single space. -/
def unwordsChars : List (List Char) → List Char
  | [] => []
  | [w] => w
  | w :: ws => w ++ spaceChar :: unwordsChars ws

/-- Python `s.strip()` on a character list: drop leading and trailing
whitespace. -/
def pyStripChars (s : List Char) : List Char :=
  ((s.dropWhile Char.isWhitespace).reverse.dropWhile Char.isWhitespace).reverse

/-- Python `s.strip()` on strings. -/
def pyStrip (s : String) : String := String.mk (pyStripChars s.data)

/-- Embeds `remove_stopwords_and_blanks` from `utils/pdf_processing.py`
(line 12) and `utils/document_processing.py` (line 16); both bodies are
Python `' '.join(text.split())`. -/
def remove_stopwords_and_blanks (text : String) : String :=
  String.mk (unwordsChars (pyWords text.data))

/-! ### Page geometry model

A parsed page as the pipeline observes it through PyMuPDF: the raster
image list, the vector-drawing list, the text-block bounding boxes, the
plain extracted text, the page rectangle, and the base64 rasterization
that `page.get_pixmap()` would produce. -/

/-- A text block's bounding box, as in `page.get_text("blocks")`. -/
structure Block where
  x0 : Rat
  y0 : Rat
  x1 : Rat
  y1 : Rat
deriving DecidableEq

/-- A parsed PDF page as observed by the classifiers. -/
structure Page where
  images : List Nat
  drawings : List Nat
  textBlocks : List Block
  text : String
  width : Rat
  height : Rat
  render : String
deriving DecidableEq

/-- Sum of text-block areas: `sum((b[2]-b[0])*(b[3]-b[1]) for b in blocks)`. -/
def textBlocksArea (blocks : List Block) : Rat :=
  (blocks.map (fun b => (b.x1 - b.x0) * (b.y1 - b.y0))).sum

namespace PdfProcessing

/-- Text coverage as computed in `utils/pdf_processing.py` lines 24-26:
`text_area / page_area if page_area > 0 else 0`. -/
def page_text_coverage (page : Page) : Rat :=
  let page_area := page.width * page.height
  if 0 < page_area then textBlocksArea page.textBlocks / page_area else 0

/-- Embeds `detect_ocr_images_and_vector_graphics_in_pdf` from
`utils/pdf_processing.py` lines 16-39, specialised to one page whose
accessors succeed (the surrounding try/except only converts accessor
failures to `None`).  `some render` means the page is flagged
image-dominant; `none` means text-dominant. -/
def detect_ocr_images_and_vector_graphics_in_pdf (page : Page)
    (ocr_text_threshold : Rat) : Option String :=
  if (page.images ≠ [] ∨ page.drawings ≠ []) ∧
      page_text_coverage page < ocr_text_threshold then
    some page.render
  else none

end PdfProcessing

namespace OcrDetection

/-- Embeds `detect_ocr_images_and_vector_graphics` from
`utils/ocr_detection.py` lines 4-38.  The division by the page area sits
inside the candidate branch and is unguarded, so a zero-area page raises
`ZeroDivisionError` there, modelled as `Except.error`. -/
def detect_ocr_images_and_vector_graphics (page : Page)
    (ocr_text_threshold : Rat) : Except String (Option String) :=
  if (page.images ≠ [] ∨ page.drawings ≠ []) ∧ pyStrip page.text ≠ "" then
    let page_area := page.width * page.height
    if page_area = 0 then Except.error "ZeroDivisionError"
    else
      let text_area := textBlocksArea page.textBlocks
      if text_area / page_area < ocr_text_threshold then
        Except.ok (some page.render)
      else Except.ok none
  else Except.ok none

end OcrDetection

namespace DocumentProcessing

/-- Loop body of `detect_ocr_images_and_vector_graphics_in_pdf` from
`utils/document_processing.py` lines 25-43, for one page: the division
`text_area / page_area` happens unconditionally (no guard), then a page
with `text_area == 0` is appended unconditionally, otherwise the
candidate-and-coverage test runs. -/
def detect_page_step (page : Page) (ocr_text_threshold : Rat) :
    Except String (Option String) :=
  let page_area := page.width * page.height
  let text_area := textBlocksArea page.textBlocks
  if page_area = 0 then Except.error "ZeroDivisionError"
  else
    if text_area = 0 then Except.ok (some page.render)
    else if (page.images ≠ [] ∨ page.drawings ≠ []) ∧ pyStrip page.text ≠ "" then
      if text_area / page_area < ocr_text_threshold then
        Except.ok (some page.render)
      else Except.ok none
    else Except.ok none

/-- Page loop of `detect_ocr_images_and_vector_graphics_in_pdf` from
`utils/document_processing.py` lines 21-44; `i` is the zero-based page
index, detected pages are reported with 1-based numbers.  The function
has no exception handler, so a failing step aborts the whole loop. -/
def detectLoop (ocr_text_threshold : Rat) : Nat → List Page →
    Except String (List (Nat × String))
  | _, [] => Except.ok []
  | i, p :: ps =>
    match detect_page_step p ocr_text_threshold with
    | Except.error e => Except.error e
    | Except.ok none => detectLoop ocr_text_threshold (i + 1) ps
    | Except.ok (some img) =>
      match detectLoop ocr_text_threshold (i + 1) ps with
      | Except.error e => Except.error e
      | Except.ok rest => Except.ok ((i + 1, img) :: rest)

/-- Embeds `detect_ocr_images_and_vector_graphics_in_pdf` from
`utils/document_processing.py` lines 21-44 over the whole document. -/
def detect_ocr_images_and_vector_graphics_in_pdf (doc : List Page)
    (ocr_text_threshold : Rat) : Except String (List (Nat × String)) :=
  detectLoop ocr_text_threshold 0 doc

end DocumentProcessing

/-! ### External-call model

Each HTTP request made by `utils/llm_interaction.py` either returns a
successfully extracted content string, fails with a timeout
(`requests.exceptions.Timeout`), or fails with another
`requests.exceptions.RequestException` (connection error or, after
`raise_for_status`, a non-success status). -/

/-- Outcome of one outbound request, as distinguished by the handlers in
`utils/llm_interaction.py`. -/
inductive ReqOutcome where
  | ok (content : String)
  | timeout
  | reqErr
deriving DecidableEq

/-- The outcome is a transport failure rather than a success. -/
def IsFailure (o : ReqOutcome) : Prop :=
  o = ReqOutcome.timeout ∨ o = ReqOutcome.reqErr

namespace LlmInteraction

/-- Sentinel returned by `summarize_page` on any `RequestException`
(`utils/llm_interaction.py` line 175). -/
def summarize_error_sentinel (page_number : Nat) : String :=
  "Error: Unable to summarize page " ++ toString page_number ++
    " due to network issues or API error."

/-- Embeds `summarize_page` from `utils/llm_interaction.py` lines 137-175:
a single POST with a 20-second timeout and no retry loop; on success the
extracted content is stripped, on any `RequestException` (timeouts
included) the page sentinel is returned and nothing is raised. -/
def summarize_page (outcome : ReqOutcome) (page_text previous_summary : String)
    (page_number : Nat) (system_prompt : String) : String :=
  match outcome with
  | ReqOutcome.ok content => pyStrip content
  | _ => summarize_error_sentinel page_number

/-- Sentinel returned by `get_image_explanation` when every attempt timed
out (`utils/llm_interaction.py` line 57). -/
def image_timeout_sentinel (retries : Nat) : String :=
  "Error: Request timed out after " ++ toString retries ++ " retries."

/-- Sentinel returned by `get_image_explanation` on a non-timeout
`RequestException` (`utils/llm_interaction.py` line 61). -/
def image_network_sentinel : String :=
  "Error: Unable to fetch image explanation due to network issues or API error."

/-- Fallthrough return of `get_image_explanation` after the attempt loop
(`utils/llm_interaction.py` line 63). -/
def image_max_retries_sentinel : String :=
  "Error: Max retries reached without success."

/-- Loop of `get_image_explanation` (`for attempt in range(retries)`),
`utils/llm_interaction.py` lines 44-63.  `fuel` is the number of loop
iterations still available (initially `retries`), `attempt` the current
zero-based attempt index; the second component records the sleep
durations requested via `time.sleep(initial_delay * (2 ** attempt))`.
Retrying happens only on a timeout, and only while
`attempt < retries - 1`; other request errors return at once. -/
def get_image_explanation_loop (oracle : Nat → ReqOutcome)
    (retries initial_delay : Nat) : Nat → Nat → String × List Nat
  | 0, _ => (image_max_retries_sentinel, [])
  | fuel + 1, attempt =>
    match oracle attempt with
    | ReqOutcome.ok content => (content, [])
    | ReqOutcome.timeout =>
      if attempt < retries - 1 then
        let rest := get_image_explanation_loop oracle retries initial_delay fuel (attempt + 1)
        (rest.1, initial_delay * 2 ^ attempt :: rest.2)
      else (image_timeout_sentinel retries, [])
    | ReqOutcome.reqErr => (image_network_sentinel, [])

/-- Embeds `get_image_explanation` from `utils/llm_interaction.py` lines
20-63: up to `retries` attempts (default 3) with exponential backoff
starting at `initial_delay` (default 2).  Returns the explanation text
together with the list of sleep durations performed. -/
def get_image_explanation (base64_image : String) (oracle : Nat → ReqOutcome)
    (retries initial_delay : Nat) : String × List Nat :=
  get_image_explanation_loop oracle retries initial_delay retries 0

/-- Sentinel returned by `generate_system_prompt` on a `RequestException`
(`utils/llm_interaction.py` line 134). -/
def system_prompt_error_sentinel : String :=
  "Error: Unable to generate system prompt due to network issues or API error."

/-- Embeds `generate_system_prompt` from `utils/llm_interaction.py` lines
66-134: single POST, sentinel on failure. -/
def generate_system_prompt (outcome : ReqOutcome) (document_content : String) :
    String :=
  match outcome with
  | ReqOutcome.ok content => pyStrip content
  | _ => system_prompt_error_sentinel

/-- Message of the exception raised by `ask_question` on failure
(`utils/llm_interaction.py` line 248). -/
def ask_question_failure : String :=
  "Unable to answer the question due to network issues or API error."

/-- Embeds `ask_question` from `utils/llm_interaction.py` lines 178-248:
single POST; on success the stripped answer, on any `RequestException`
the exception is re-raised to the caller, modelled as `Except.error`. -/
def ask_question (outcome : ReqOutcome) (question : String) :
    Except String String :=
  match outcome with
  | ReqOutcome.ok content => Except.ok (pyStrip content)
  | _ => Except.error ask_question_failure

end LlmInteraction

/-- HTTP response as observed by `utils/document_processing.py`, which
branches on `response.status_code == 200` instead of using exceptions. -/
inductive HttpResp where
  | success (content : String)
  | failure (status : Nat) (body : String)
deriving DecidableEq

namespace DocumentProcessing

/-- Embeds `ask_question` from `utils/document_processing.py` lines
235-286: on a 200 response the stripped answer, otherwise
`raise Exception(f"Error: ...")`, modelled as `Except.error`. -/
def ask_question (resp : HttpResp) : Except String String :=
  match resp with
  | HttpResp.success content => Except.ok (pyStrip content)
  | HttpResp.failure status body =>
    Except.error ("Error: " ++ toString status ++ ", " ++ body)

end DocumentProcessing

/-! ### Page records and the batched pipeline of `utils/pdf_processing.py` -/

/-- One entry of a page's `image_analysis` list. -/
structure ImageAnalysis where
  page_number : Nat
  explanation : String
deriving DecidableEq

/-- One page's processed output, as assembled by `process_page_batch`. -/
structure PageRecord where
  page_number : Nat
  full_text : String
  text_summary : String
  image_analysis : List ImageAnalysis
deriving DecidableEq

/-- The per-document record returned by `process_pdf_pages`. -/
structure DocumentRecord where
  document_name : String
  pages : List PageRecord
deriving DecidableEq

/-- Environment for one pipeline run: `loadPage n` is the combined outcome
of `pdf_document.load_page(n)` and the page accessors (the only raising
operations inside the per-page try block), `sumOutcome n` the outcome of
the summarization POST for page index `n`, and `imgOutcome n a` the
outcome of attempt `a` of the image-explanation POST for page index `n`. -/
structure BatchEnv where
  loadPage : Nat → Except String Page
  sumOutcome : Nat → ReqOutcome
  imgOutcome : Nat → Nat → ReqOutcome

/-- Every page of `batch` loads successfully in `env`. -/
def loads_ok (env : BatchEnv) (batch : List Nat) : Prop :=
  ∀ n ∈ batch, ∃ p, env.loadPage n = Except.ok p

/-- Instrumentation record of one `summarize_page` call made by
`process_page_batch`: the 1-based page number passed, the
`previous_summary` argument passed, and the summary returned. -/
structure SummCall where
  page_number : Nat
  previous_summary : String
  result : String
deriving DecidableEq

namespace PdfProcessing

/-- Placeholder record appended by the per-page exception handler of
`process_page_batch` (`utils/pdf_processing.py` lines 71-78). -/
def error_placeholder (page_number : Nat) : PageRecord :=
  { page_number := page_number
    full_text := ""
    text_summary := "Error in processing this page"
    image_analysis := [] }

/-- Loop of `process_page_batch` from `utils/pdf_processing.py` lines
41-80, threading `previous_summary` and also logging each
`summarize_page` call's arguments and result.  A failing page load takes
the per-page except branch: the placeholder is appended and
`previous_summary` is left unchanged. -/
def process_page_batch_core (env : BatchEnv) (system_prompt : String)
    (ocr_text_threshold : Rat) :
    String → List Nat → List PageRecord × List SummCall
  | _, [] => ([], [])
  | previous_summary, n :: rest =>
    match env.loadPage n with
    | Except.error _ =>
      let r := process_page_batch_core env system_prompt ocr_text_threshold
        previous_summary rest
      (error_placeholder (n + 1) :: r.1, r.2)
    | Except.ok page =>
      let text := pyStrip page.text
      let preprocessed_text := remove_stopwords_and_blanks text
      let summary := LlmInteraction.summarize_page (env.sumOutcome n)
        preprocessed_text previous_summary (n + 1) system_prompt
      let image_data := detect_ocr_images_and_vector_graphics_in_pdf page
        ocr_text_threshold
      let image_analysis :=
        match image_data with
        | some img =>
          [{ page_number := n + 1
             explanation := (LlmInteraction.get_image_explanation img
               (env.imgOutcome n) 3 2).1 }]
        | none => []
      let r := process_page_batch_core env system_prompt ocr_text_threshold
        summary rest
      ({ page_number := n + 1
         full_text := text
         text_summary := summary
         image_analysis := image_analysis } :: r.1,
       { page_number := n + 1
         previous_summary := previous_summary
         result := summary } :: r.2)

/-- Embeds `process_page_batch` from `utils/pdf_processing.py` lines
41-80: the chain starts from the empty previous summary. -/
def process_page_batch (env : BatchEnv) (batch : List Nat)
    (system_prompt : String) (ocr_text_threshold : Rat) : List PageRecord :=
  (process_page_batch_core env system_prompt ocr_text_threshold "" batch).1

/-- The log of `summarize_page` calls made by `process_page_batch`. -/
def summarize_call_log (env : BatchEnv) (batch : List Nat)
    (system_prompt : String) (ocr_text_threshold : Rat) : List SummCall :=
  (process_page_batch_core env system_prompt ocr_text_threshold "" batch).2

/-- Iterations of Python `range(start, stop, step)` for a positive step;
`fuel` bounds the number of iterations and `stop - start` iterations
always suffice when `step` is at least 1. -/
def pyRangeStepAux : Nat → Nat → Nat → Nat → List Nat
  | 0, _, _, _ => []
  | fuel + 1, start, stop, step =>
    if start < stop then start :: pyRangeStepAux fuel (start + step) stop step
    else []

/-- Python `range(start, stop, step)` as a list, for `step > 0` (a zero
step raises in Python and yields the empty list here). -/
def pyRangeStep (start stop step : Nat) : List Nat :=
  if 0 < step then pyRangeStepAux (stop - start) start stop step else []

/-- Embeds the batch partition of `process_pdf_pages`
(`utils/pdf_processing.py` line 108):
`[range(i, min(i + batch_size, total_pages)) for i in range(0, total_pages, batch_size)]`. -/
def page_batches (total_pages batch_size : Nat) : List (List Nat) :=
  (pyRangeStep 0 total_pages batch_size).map
    (fun i => List.range' i (min (i + batch_size) total_pages - i))

/-- Key order used by `document_data["pages"].sort(key=lambda x: x["page_number"])`. -/
def pageKeyLe (a b : PageRecord) : Prop := a.page_number ≤ b.page_number

instance : DecidableRel pageKeyLe := fun a b => Nat.decLe a.page_number b.page_number

instance : IsTotal PageRecord pageKeyLe :=
  ⟨fun a b => Nat.le_total a.page_number b.page_number⟩

instance : IsTrans PageRecord pageKeyLe :=
  ⟨fun _ _ _ hab hbc => Nat.le_trans hab hbc⟩

/-- Models `document_data["pages"].sort(key=lambda x: x["page_number"])`
(`utils/pdf_processing.py` line 124): a stable sort by `page_number`. -/
def sortByPage (l : List PageRecord) : List PageRecord :=
  List.insertionSort pageKeyLe l

/-- Embeds the result-collection loop of `process_pdf_pages`
(`utils/pdf_processing.py` lines 111-124): each completed future either
delivers its batch's records, which extend the page list, or raises, in
which case the error is only logged and the batch contributes nothing;
afterwards the collected pages are sorted by page number. -/
def merge_batch_results (results : List (Except String (List PageRecord))) :
    List PageRecord :=
  sortByPage ((results.filterMap Except.toOption).flatten)

/-- Embeds `process_pdf_pages` from `utils/pdf_processing.py` lines
83-125 after parsing: `completion` is the list of page batches in the
order `as_completed` yields them (faithfulness requires it to be a
permutation of `page_batches total_pages 5`); every batch task runs
`process_page_batch` with the default threshold `0.4` and, being a total
function here, completes without a batch-level exception. -/
def process_pdf_pages (env : BatchEnv) (document_name system_prompt : String)
    (completion : List (List Nat)) : DocumentRecord :=
  { document_name := document_name
    pages := merge_batch_results (completion.map
      (fun b => Except.ok (process_page_batch env b system_prompt (2 / 5)))) }

end PdfProcessing

/-! ### Projection helpers used to state the claims without lambdas -/

/-- The `page_number` column of a record list. -/
def page_numbers_of (recs : List PageRecord) : List Nat :=
  recs.map (fun r => r.page_number)

/-- The first record carrying the given page number, if any. -/
def record_for (recs : List PageRecord) (pn : Nat) : Option PageRecord :=
  recs.find? (fun r => r.page_number == pn)

/-- The `text_summary` of the first record carrying the given page
number, if any. -/
def summary_for (recs : List PageRecord) (pn : Nat) : Option String :=
  match record_for recs pn with
  | some r => some r.text_summary
  | none => none

/-- The `page_number` column of a summarize-call log. -/
def call_pages_of (log : List SummCall) : List Nat :=
  log.map (fun c => c.page_number)

/-- The `previous_summary` column of a summarize-call log. -/
def call_prevs_of (log : List SummCall) : List String :=
  log.map (fun c => c.previous_summary)

/-- The `result` column of a summarize-call log. -/
def call_results_of (log : List SummCall) : List String :=
  log.map (fun c => c.result)

/-! ### Concrete fixtures for witnesses and counterexamples -/

/-- A plain text page: no images, no drawings, unit square, empty text. -/
def plainPage : Page :=
  { images := [], drawings := [], textBlocks := [], text := ""
    width := 1, height := 1, render := "RENDER" }

/-- A page with one raster image and zero extractable text. -/
def zeroTextImagePage : Page :=
  { images := [7], drawings := [], textBlocks := [], text := ""
    width := 1, height := 1, render := "RENDER" }

/-- A degenerate page whose rectangle has zero area but which carries an
image and some text. -/
def zeroAreaPage : Page :=
  { images := [7], drawings := [], textBlocks := [⟨0, 0, 1, 1⟩], text := "hi"
    width := 0, height := 1, render := "RENDER" }

/-- An ordinary text page: no images or drawings, one text block covering
the whole unit-square page. -/
def textPage : Page :=
  { images := [], drawings := [], textBlocks := [⟨0, 0, 1, 1⟩], text := "hello"
    width := 1, height := 1, render := "RENDER" }

/-- Oracle under which every request attempt times out. -/
def allTimeouts : Nat → ReqOutcome := fun _ => ReqOutcome.timeout

/-- Environment in which every page loads as `plainPage` and every
external call succeeds. -/
def envOk : BatchEnv :=
  { loadPage := fun _ => Except.ok plainPage
    sumOutcome := fun _ => ReqOutcome.ok "S"
    imgOutcome := fun _ _ => ReqOutcome.ok "E" }

/-- Environment in which every page loads but every summarization POST
times out. -/
def envSumTimeout : BatchEnv :=
  { loadPage := fun _ => Except.ok plainPage
    sumOutcome := fun _ => ReqOutcome.timeout
    imgOutcome := fun _ _ => ReqOutcome.timeout }

/-- Environment in which loading page index 1 raises while all other
pages process normally. -/
def envFailPage1 : BatchEnv :=
  { loadPage := fun n => if n = 1 then Except.error "X" else Except.ok plainPage
    sumOutcome := fun _ => ReqOutcome.ok "S"
    imgOutcome := fun _ _ => ReqOutcome.ok "E" }

/-! ### Lemmas on the Python string primitives -/

theorem spaceChar_isWhitespace : spaceChar.isWhitespace = true := by decide

theorem pyWordsAux_good : ∀ (cs acc : List Char),
    (∀ c ∈ acc, c.isWhitespace = false) →
    ∀ w ∈ pyWordsAux acc cs, w ≠ [] ∧ ∀ c ∈ w, c.isWhitespace = false := by
  intro cs
  induction cs with
  | nil =>
    intro acc hacc w hw
    simp only [pyWordsAux] at hw
    by_cases h : acc = []
    · simp [h] at hw
    · simp only [if_neg h, List.mem_singleton] at hw
      subst hw
      refine ⟨by simpa using h, ?_⟩
      intro c hc
      exact hacc c (List.mem_reverse.mp hc)
  | cons c cs ih =>
    intro acc hacc w hw
    simp only [pyWordsAux] at hw
    cases hws : c.isWhitespace with
    | true =>
      rw [hws] at hw
      simp only [if_true] at hw
      by_cases h : acc = []
      · rw [if_pos h] at hw
        exact ih [] (by simp) w hw
      · rw [if_neg h] at hw
        rcases List.mem_cons.mp hw with h1 | h1
        · subst h1
          refine ⟨by simpa using h, ?_⟩
          intro d hd
          exact hacc d (List.mem_reverse.mp hd)
        · exact ih [] (by simp) w h1
    | false =>
      rw [hws] at hw
      simp only [Bool.false_eq_true, if_false] at hw
      refine ih (c :: acc) ?_ w hw
      intro d hd
      rcases List.mem_cons.mp hd with h1 | h1
      · subst h1; exact hws
      · exact hacc d h1

theorem pyWordsAux_append_nonws : ∀ (w acc rest : List Char),
    (∀ c ∈ w, c.isWhitespace = false) →
    pyWordsAux acc (w ++ rest) = pyWordsAux (w.reverse ++ acc) rest := by
  intro w
  induction w with
  | nil => intro acc rest _; simp
  | cons c w ih =>
    intro acc rest hw
    have hc : c.isWhitespace = false := hw c (List.mem_cons_self c w)
    simp only [List.cons_append, pyWordsAux, hc, Bool.false_eq_true, if_false]
    show pyWordsAux (c :: acc) (w ++ rest) = _
    rw [ih (c :: acc) rest (fun d hd => hw d (List.mem_cons_of_mem c hd))]
    simp [List.append_assoc]

theorem pyWords_unwords : ∀ ws : List (List Char),
    (∀ w ∈ ws, w ≠ [] ∧ ∀ c ∈ w, c.isWhitespace = false) →
    pyWords (unwordsChars ws) = ws := by
  intro ws
  induction ws with
  | nil => intro _; simp [unwordsChars, pyWords, pyWordsAux]
  | cons w ws ih =>
    intro hgood
    have hw := hgood w (List.mem_cons_self w ws)
    cases ws with
    | nil =>
      show pyWords (unwordsChars [w]) = [w]
      have h0 : unwordsChars [w] = w := rfl
      rw [h0, pyWords, ← List.append_nil w,
        pyWordsAux_append_nonws w [] [] hw.2]
      simp only [List.append_nil, pyWordsAux]
      rw [if_neg (by simpa using hw.1)]
      simp
    | cons w' ws' =>
      have h0 : unwordsChars (w :: w' :: ws') =
          w ++ spaceChar :: unwordsChars (w' :: ws') := rfl
      rw [pyWords, h0, pyWordsAux_append_nonws w [] _ hw.2]
      simp only [List.append_nil, pyWordsAux, spaceChar_isWhitespace, if_true]
      rw [if_neg (by simpa using hw.1)]
      rw [List.reverse_reverse]
      have := ih (fun v hv => hgood v (List.mem_cons_of_mem w hv))
      rw [pyWords] at this
      rw [this]

theorem pyWords_good (s : List Char) :
    ∀ w ∈ pyWords s, w ≠ [] ∧ ∀ c ∈ w, c.isWhitespace = false :=
  pyWordsAux_good s [] (by simp)

/-- C10: the text-cleaning helper `remove_stopwords_and_blanks` is
idempotent, and despite its name it removes no words: it only joins the
whitespace-separated words of its input with single spaces, so the word
list of the output equals the word list of the input. -/
theorem claim10_remove_stopwords_idempotent (s : String) :
    remove_stopwords_and_blanks (remove_stopwords_and_blanks s) =
      remove_stopwords_and_blanks s ∧
    pyWords (remove_stopwords_and_blanks s).data = pyWords s.data := by
  have hkey : pyWords (unwordsChars (pyWords s.data)) = pyWords s.data :=
    pyWords_unwords (pyWords s.data) (pyWords_good s.data)
  constructor
  · show String.mk (unwordsChars (pyWords (unwordsChars (pyWords s.data)))) =
      String.mk (unwordsChars (pyWords s.data))
    rw [hkey]
  · exact hkey

/-- C2: corrected form of the backoff claim.  The page summarizer
`summarize_page` performs exactly one attempt and returns its
page-identifying sentinel on a timeout with no retry and no delay; the
exponential backoff exists only in `get_image_explanation`, where three
consecutive timeouts with the default parameters (3 retries, initial
delay 2) produce exactly two delay intervals, 2 then 4 time units (ratio
1:2), before the timeout sentinel is returned instead of raising. -/
theorem claim2_amended :
    LlmInteraction.get_image_explanation "img" allTimeouts 3 2 =
      (LlmInteraction.image_timeout_sentinel 3, [2, 4]) ∧
    ∀ (page_text previous_summary system_prompt : String) (page_number : Nat),
      LlmInteraction.summarize_page ReqOutcome.timeout page_text
        previous_summary page_number system_prompt =
        LlmInteraction.summarize_error_sentinel page_number :=
  ⟨rfl, fun _ _ _ _ => rfl⟩

/-- C2 counterexample: with every attempt timing out, the only retrying
call of the program, `get_image_explanation`, sleeps exactly twice (2 and
4 time units), not three times in ratio 1:2:4 as claimed; the delay list
has length 2, not 3. -/
theorem claim2_counterexample :
    (LlmInteraction.get_image_explanation "img" allTimeouts 3 2).2 = [2, 4] ∧
    (LlmInteraction.get_image_explanation "img" allTimeouts 3 2).2.length = 2 :=
  ⟨rfl, rfl⟩

/-- C9: when the question-answering POST fails, `ask_question` raises to
the caller (an `Except.error`), while every other per-call operation of
the module degrades to a sentinel string instead of failing:
`summarize_page` and `generate_system_prompt` return their sentinels on
the same failing outcome, `get_image_explanation` returns its timeout
sentinel after exhausting retries, and `document_processing.ask_question`
likewise raises on a non-success status. -/
theorem claim9_answer_raises (out : ReqOutcome) (hfail : IsFailure out)
    (question page_text previous_summary system_prompt document_content
      base64_image body : String) (page_number status : Nat) :
    LlmInteraction.ask_question out question =
      Except.error LlmInteraction.ask_question_failure ∧
    LlmInteraction.summarize_page out page_text previous_summary page_number
      system_prompt = LlmInteraction.summarize_error_sentinel page_number ∧
    LlmInteraction.generate_system_prompt out document_content =
      LlmInteraction.system_prompt_error_sentinel ∧
    (LlmInteraction.get_image_explanation base64_image allTimeouts 3 2).1 =
      LlmInteraction.image_timeout_sentinel 3 ∧
    DocumentProcessing.ask_question (HttpResp.failure status body) =
      Except.error ("Error: " ++ toString status ++ ", " ++ body) := by
  rcases hfail with h | h <;> subst h <;> exact ⟨rfl, rfl, rfl, rfl, rfl⟩

theorem claim9_answer_raises_witness :
    IsFailure ReqOutcome.timeout ∧
    (LlmInteraction.ask_question ReqOutcome.timeout "q" =
      Except.error LlmInteraction.ask_question_failure ∧
    LlmInteraction.summarize_page ReqOutcome.timeout "text" "prev" 3 "persona" =
      LlmInteraction.summarize_error_sentinel 3 ∧
    LlmInteraction.generate_system_prompt ReqOutcome.timeout "doc" =
      LlmInteraction.system_prompt_error_sentinel ∧
    (LlmInteraction.get_image_explanation "img" allTimeouts 3 2).1 =
      LlmInteraction.image_timeout_sentinel 3 ∧
    DocumentProcessing.ask_question (HttpResp.failure 500 "ISE") =
      Except.error ("Error: " ++ toString 500 ++ ", " ++ "ISE")) :=
  ⟨Or.inl rfl, claim9_answer_raises ReqOutcome.timeout (Or.inl rfl)
    "q" "text" "prev" "persona" "doc" "img" "ISE" 3 500⟩

/-- C4 counterexample: a page with one raster image and zero extractable
text is classified text-dominant (not image-dominant) by
`ocr_detection.detect_ocr_images_and_vector_graphics`, because that
variant additionally requires nonempty stripped text before flagging a
page; here with the module's default threshold 0.1. -/
theorem claim4_counterexample :
    OcrDetection.detect_ocr_images_and_vector_graphics zeroTextImagePage
      (1 / 10) = Except.ok none := rfl

/-- C4 amended: a page with zero extractable text and at least one image
or drawing is classified image-dominant by the classifier of
`pdf_processing.py` for every threshold greater than 0; the variant in
`ocr_detection.py`, however, classifies such a page text-dominant
(returns no image) because it also requires nonempty stripped text. -/
theorem claim4_amended (page : Page) (thr : Rat) (hthr : 0 < thr)
    (hblocks : page.textBlocks = []) (htext : pyStrip page.text = "")
    (hcand : page.images ≠ [] ∨ page.drawings ≠ []) :
    PdfProcessing.detect_ocr_images_and_vector_graphics_in_pdf page thr =
      some page.render ∧
    OcrDetection.detect_ocr_images_and_vector_graphics page thr =
      Except.ok none := by
  constructor
  · have hcov : PdfProcessing.page_text_coverage page = 0 := by
      unfold PdfProcessing.page_text_coverage
      rw [hblocks]
      simp [textBlocksArea]
    unfold PdfProcessing.detect_ocr_images_and_vector_graphics_in_pdf
    rw [hcov, if_pos ⟨hcand, hthr⟩]
  · unfold OcrDetection.detect_ocr_images_and_vector_graphics
    rw [if_neg]
    intro hc
    exact hc.2 htext

theorem claim4_amended_witness :
    (0 : Rat) < 1 / 10 ∧ zeroTextImagePage.textBlocks = [] ∧
    pyStrip zeroTextImagePage.text = "" ∧
    (zeroTextImagePage.images ≠ [] ∨ zeroTextImagePage.drawings ≠ []) ∧
    (PdfProcessing.detect_ocr_images_and_vector_graphics_in_pdf
      zeroTextImagePage (1 / 10) = some zeroTextImagePage.render ∧
    OcrDetection.detect_ocr_images_and_vector_graphics zeroTextImagePage
      (1 / 10) = Except.ok none) :=
  ⟨by norm_num, rfl, rfl, Or.inl (by decide),
    claim4_amended zeroTextImagePage (1 / 10) (by norm_num) rfl rfl
      (Or.inl (by decide))⟩

/-- C3 counterexample: a blank page (no images, no drawings, no text
blocks, unit area) is flagged image-dominant by the classifier of
`document_processing.py`, whose `text_area == 0` branch appends the page
unconditionally; under the claim it should always be text-dominant. -/
theorem claim3_counterexample :
    DocumentProcessing.detect_ocr_images_and_vector_graphics_in_pdf
      [plainPage] (2 / 5) = Except.ok [(1, "RENDER")] := by
  have hstep : DocumentProcessing.detect_page_step plainPage (2 / 5) =
      Except.ok (some "RENDER") := by
    simp [DocumentProcessing.detect_page_step, plainPage, textBlocksArea]
  simp [DocumentProcessing.detect_ocr_images_and_vector_graphics_in_pdf,
    DocumentProcessing.detectLoop, hstep]

/-- C3 amended: a page with no raster images and no vector drawings is
classified text-dominant by the classifiers of `pdf_processing.py` and
`ocr_detection.py` for every text coverage value including 0; the variant
in `document_processing.py` classifies it text-dominant only when the
page's text-block area is nonzero (and its page area is nonzero), because
its `text_area == 0` branch flags even imageless pages. -/
theorem claim3_amended (page : Page) (thr : Rat)
    (himg : page.images = []) (hdraw : page.drawings = []) :
    PdfProcessing.detect_ocr_images_and_vector_graphics_in_pdf page thr =
      none ∧
    OcrDetection.detect_ocr_images_and_vector_graphics page thr =
      Except.ok none ∧
    (textBlocksArea page.textBlocks ≠ 0 → page.width * page.height ≠ 0 →
      DocumentProcessing.detect_page_step page thr = Except.ok none) := by
  refine ⟨?_, ?_, ?_⟩
  · simp [PdfProcessing.detect_ocr_images_and_vector_graphics_in_pdf, himg,
      hdraw]
  · simp [OcrDetection.detect_ocr_images_and_vector_graphics, himg, hdraw]
  · intro hta hpa
    simp [DocumentProcessing.detect_page_step, hta, hpa, himg, hdraw]

theorem claim3_amended_witness :
    textPage.images = [] ∧ textPage.drawings = [] ∧
    (PdfProcessing.detect_ocr_images_and_vector_graphics_in_pdf textPage
      (2 / 5) = none ∧
    OcrDetection.detect_ocr_images_and_vector_graphics textPage (2 / 5) =
      Except.ok none ∧
    (textBlocksArea textPage.textBlocks ≠ 0 →
      textPage.width * textPage.height ≠ 0 →
      DocumentProcessing.detect_page_step textPage (2 / 5) =
        Except.ok none)) :=
  ⟨rfl, rfl, claim3_amended textPage (2 / 5) rfl rfl⟩

/-- C7 counterexample: on a zero-area page the classifier of
`document_processing.py` divides by the page area unguarded and fails
with a `ZeroDivisionError` instead of treating the coverage as 0. -/
theorem claim7_counterexample :
    DocumentProcessing.detect_ocr_images_and_vector_graphics_in_pdf
      [zeroAreaPage] (2 / 5) = Except.error "ZeroDivisionError" := by
  have hstep : DocumentProcessing.detect_page_step zeroAreaPage (2 / 5) =
      Except.error "ZeroDivisionError" := by
    simp [DocumentProcessing.detect_page_step, zeroAreaPage]
  simp [DocumentProcessing.detect_ocr_images_and_vector_graphics_in_pdf,
    DocumentProcessing.detectLoop, hstep]

/-- C7 amended: the classifier of `pdf_processing.py` computes text
coverage as the sum of text-block areas divided by the page area and
guards a zero-area page by treating the coverage as 0 (so such a page is
still classified, image-dominant when it has an image or drawing); the
variants in `document_processing.py` and `ocr_detection.py` have no
guard: the former fails with a division error on every zero-area page,
the latter on every zero-area candidate page with nonempty text. -/
theorem claim7_amended (p q : Page) (thr : Rat)
    (hpos : 0 < p.width * p.height) (hzero : q.width * q.height = 0)
    (hthr : 0 < thr) :
    PdfProcessing.page_text_coverage p =
      textBlocksArea p.textBlocks / (p.width * p.height) ∧
    PdfProcessing.page_text_coverage q = 0 ∧
    ((q.images ≠ [] ∨ q.drawings ≠ []) →
      PdfProcessing.detect_ocr_images_and_vector_graphics_in_pdf q thr =
        some q.render) ∧
    DocumentProcessing.detect_page_step q thr =
      Except.error "ZeroDivisionError" ∧
    ((q.images ≠ [] ∨ q.drawings ≠ []) → pyStrip q.text ≠ "" →
      OcrDetection.detect_ocr_images_and_vector_graphics q thr =
        Except.error "ZeroDivisionError") := by
  have hcovq : PdfProcessing.page_text_coverage q = 0 := by
    simp only [PdfProcessing.page_text_coverage]
    rw [hzero]
    simp
  refine ⟨?_, hcovq, ?_, ?_, ?_⟩
  · simp only [PdfProcessing.page_text_coverage]
    rw [if_pos hpos]
  · intro hcand
    unfold PdfProcessing.detect_ocr_images_and_vector_graphics_in_pdf
    rw [hcovq, if_pos ⟨hcand, hthr⟩]
  · simp [DocumentProcessing.detect_page_step, hzero]
  · intro hcand htext
    simp [OcrDetection.detect_ocr_images_and_vector_graphics, hcand, htext,
      hzero]

theorem claim7_amended_witness :
    (0 : Rat) < textPage.width * textPage.height ∧
    zeroAreaPage.width * zeroAreaPage.height = 0 ∧ (0 : Rat) < 2 / 5 ∧
    (PdfProcessing.page_text_coverage textPage =
      textBlocksArea textPage.textBlocks /
        (textPage.width * textPage.height) ∧
    PdfProcessing.page_text_coverage zeroAreaPage = 0 ∧
    ((zeroAreaPage.images ≠ [] ∨ zeroAreaPage.drawings ≠ []) →
      PdfProcessing.detect_ocr_images_and_vector_graphics_in_pdf zeroAreaPage
        (2 / 5) = some zeroAreaPage.render) ∧
    DocumentProcessing.detect_page_step zeroAreaPage (2 / 5) =
      Except.error "ZeroDivisionError" ∧
    ((zeroAreaPage.images ≠ [] ∨ zeroAreaPage.drawings ≠ []) →
      pyStrip zeroAreaPage.text ≠ "" →
      OcrDetection.detect_ocr_images_and_vector_graphics zeroAreaPage
        (2 / 5) = Except.error "ZeroDivisionError")) :=
  ⟨by norm_num [textPage], by norm_num [zeroAreaPage], by norm_num,
    claim7_amended textPage zeroAreaPage (2 / 5) (by norm_num [textPage])
      (by norm_num [zeroAreaPage]) (by norm_num)⟩

/-! ### Lemmas on the batch loop -/

theorem core_fst_pages (env : BatchEnv) (prompt : String) (thr : Rat) :
    ∀ (batch : List Nat) (prev : String),
      page_numbers_of
        (PdfProcessing.process_page_batch_core env prompt thr prev batch).1 =
        batch.map (fun n => n + 1) := by
  intro batch
  induction batch with
  | nil => intro prev; rfl
  | cons n rest ih =>
    intro prev
    cases h : env.loadPage n with
    | error e =>
      simp only [PdfProcessing.process_page_batch_core, h, List.map_cons,
        page_numbers_of, PdfProcessing.error_placeholder]
      rw [← page_numbers_of, ih prev]
    | ok page =>
      simp only [PdfProcessing.process_page_batch_core, h, List.map_cons,
        page_numbers_of]
      rw [← page_numbers_of, ih]

theorem core_placeholder_mem (env : BatchEnv) (prompt : String) (thr : Rat) :
    ∀ (batch : List Nat) (prev : String) (n : Nat) (e : String),
      n ∈ batch → env.loadPage n = Except.error e →
      PdfProcessing.error_placeholder (n + 1) ∈
        (PdfProcessing.process_page_batch_core env prompt thr prev batch).1 := by
  intro batch
  induction batch with
  | nil => intro prev n e hmem _; simp at hmem
  | cons m rest ih =>
    intro prev n e hmem herr
    by_cases hmn : m = n
    · subst hmn
      simp only [PdfProcessing.process_page_batch_core, herr]
      exact List.mem_cons_self _ _
    · have hmemr : n ∈ rest := by
        rcases List.mem_cons.mp hmem with h | h
        · exact absurd h.symm hmn
        · exact h
      cases h : env.loadPage m with
      | error e2 =>
        simp only [PdfProcessing.process_page_batch_core, h]
        exact List.mem_cons_of_mem _ (ih prev n e hmemr herr)
      | ok page =>
        simp only [PdfProcessing.process_page_batch_core, h]
        exact List.mem_cons_of_mem _ (ih _ n e hmemr herr)

theorem summarize_page_fail (out : ReqOutcome) (hfail : IsFailure out)
    (page_text previous_summary system_prompt : String) (page_number : Nat) :
    LlmInteraction.summarize_page out page_text previous_summary page_number
      system_prompt = LlmInteraction.summarize_error_sentinel page_number := by
  rcases hfail with h | h <;> subst h <;> rfl

theorem core_summary_sentinel (env : BatchEnv) (prompt : String) (thr : Rat) :
    ∀ (batch : List Nat) (prev : String) (n : Nat) (page : Page),
      n ∈ batch → env.loadPage n = Except.ok page →
      IsFailure (env.sumOutcome n) →
      summary_for
        (PdfProcessing.process_page_batch_core env prompt thr prev batch).1
        (n + 1) = some (LlmInteraction.summarize_error_sentinel (n + 1)) := by
  intro batch
  induction batch with
  | nil => intro prev n page hmem _ _; simp at hmem
  | cons m rest ih =>
    intro prev n page hmem hload hfail
    by_cases hmn : m = n
    · subst hmn
      simp only [PdfProcessing.process_page_batch_core, hload]
      rw [summary_for, record_for, List.find?_cons]
      simp only [beq_self_eq_true]
      rw [summarize_page_fail (env.sumOutcome m) hfail]
    · have hmemr : n ∈ rest := by
        rcases List.mem_cons.mp hmem with h | h
        · exact absurd h.symm hmn
        · exact h
      have hne : ((m + 1 : Nat) == n + 1) = false := by
        simp
        omega
      cases h : env.loadPage m with
      | error e2 =>
        simp only [PdfProcessing.process_page_batch_core, h]
        rw [summary_for, record_for, List.find?_cons]
        simp only [PdfProcessing.error_placeholder, hne]
        exact ih prev n page hmemr hload hfail
      | ok pg =>
        simp only [PdfProcessing.process_page_batch_core, h]
        rw [summary_for, record_for, List.find?_cons]
        simp only [hne]
        exact ih _ n page hmemr hload hfail

theorem core_call_log (env : BatchEnv) (prompt : String) (thr : Rat) :
    ∀ (batch : List Nat) (prev : String), loads_ok env batch →
      call_pages_of
        (PdfProcessing.process_page_batch_core env prompt thr prev batch).2 =
        batch.map (fun n => n + 1) ∧
      call_prevs_of
        (PdfProcessing.process_page_batch_core env prompt thr prev batch).2 =
        (prev :: call_results_of
          (PdfProcessing.process_page_batch_core env prompt thr prev batch).2).dropLast := by
  intro batch
  induction batch with
  | nil => intro prev _; exact ⟨rfl, rfl⟩
  | cons n rest ih =>
    intro prev hok
    obtain ⟨page, hload⟩ := hok n (List.mem_cons_self n rest)
    have hokr : loads_ok env rest := fun m hm => hok m (List.mem_cons_of_mem n hm)
    simp only [PdfProcessing.process_page_batch_core, hload, call_pages_of,
      call_prevs_of, call_results_of, List.map_cons]
    constructor
    · rw [← call_pages_of, (ih _ hokr).1]
    · have h2 := (ih (LlmInteraction.summarize_page (env.sumOutcome n)
        (remove_stopwords_and_blanks (pyStrip page.text)) prev (n + 1) prompt)
        hokr).2
      rw [← call_prevs_of, ← call_results_of, h2, List.dropLast_cons₂]

/-! ### Lemmas on the merge and sort stage -/

theorem sortByPage_perm (l : List PageRecord) :
    (PdfProcessing.sortByPage l).Perm l :=
  List.perm_insertionSort PdfProcessing.pageKeyLe l

theorem sortByPage_sorted (l : List PageRecord) :
    List.Sorted PdfProcessing.pageKeyLe (PdfProcessing.sortByPage l) :=
  List.sorted_insertionSort PdfProcessing.pageKeyLe l

theorem sortByPage_pages_sorted (l : List PageRecord) :
    List.Sorted (fun a b => a ≤ b)
      (page_numbers_of (PdfProcessing.sortByPage l)) := by
  have h : List.Pairwise PdfProcessing.pageKeyLe (PdfProcessing.sortByPage l) :=
    sortByPage_sorted l
  show List.Pairwise (fun a b => a ≤ b)
    (List.map (fun r : PageRecord => r.page_number) (PdfProcessing.sortByPage l))
  exact List.Pairwise.map (fun r : PageRecord => r.page_number)
    (fun a b hab => hab) h

theorem range'_map_add_one : ∀ (n s : Nat),
    (List.range' s n).map (fun k => k + 1) = List.range' (s + 1) n := by
  intro n
  induction n with
  | zero => intro s; rfl
  | succ n ih =>
    intro s
    rw [List.range'_succ, List.range'_succ, List.map_cons, ih]

theorem pyRangeStepAux_batches_flatten (N bs : Nat) (hbs : 0 < bs) :
    ∀ (fuel start : Nat), N - start ≤ fuel →
      ((PdfProcessing.pyRangeStepAux fuel start N bs).map
        (fun i => List.range' i (min (i + bs) N - i))).flatten =
        List.range' start (N - start) := by
  intro fuel
  induction fuel with
  | zero =>
    intro start h
    have h0 : N - start = 0 := Nat.le_zero.mp h
    simp [PdfProcessing.pyRangeStepAux, h0]
  | succ fuel ih =>
    intro start h
    by_cases hlt : start < N
    · simp only [PdfProcessing.pyRangeStepAux, if_pos hlt, List.map_cons,
        List.flatten_cons]
      rw [ih (start + bs) (by omega)]
      by_cases hle : start + bs ≤ N
      · have h1 : min (start + bs) N - start = bs := by omega
        rw [h1]
        have happ := List.range'_append start bs (N - (start + bs)) 1
        simp only [one_mul] at happ
        rw [happ]
        congr 1
        omega
      · have h1 : N - (start + bs) = 0 := by omega
        have h2 : min (start + bs) N - start = N - start := by omega
        rw [h1, h2]
        simp
    · simp only [PdfProcessing.pyRangeStepAux, if_neg hlt]
      have h0 : N - start = 0 := by omega
      simp [h0]

theorem page_batches_flatten (N bs : Nat) (hbs : 0 < bs) :
    (PdfProcessing.page_batches N bs).flatten = List.range' 0 N := by
  have h := pyRangeStepAux_batches_flatten N bs hbs (N - 0) 0 (Nat.le_refl _)
  unfold PdfProcessing.page_batches PdfProcessing.pyRangeStep
  rw [if_pos hbs]
  simpa using h

/-- C1: for a document of `N` pages, whatever the positive batch size and
whatever order the batch futures complete in, the assembled record's
pages carry exactly the page numbers `1..N`, in ascending order, with no
duplicates and no gaps (its `page_number` column is the list
`List.range' 1 N`). -/
theorem claim1_pages_contiguous (env : BatchEnv) (name prompt : String)
    (N bs : Nat) (hbs : 0 < bs) (completion : List (List Nat))
    (hperm : completion.Perm (PdfProcessing.page_batches N bs)) :
    page_numbers_of
      (PdfProcessing.process_pdf_pages env name prompt completion).pages =
      List.range' 1 N := by
  have hpages :
      (PdfProcessing.process_pdf_pages env name prompt completion).pages =
      PdfProcessing.sortByPage ((completion.map (fun b =>
        PdfProcessing.process_page_batch env b prompt (2 / 5))).flatten) := by
    simp only [PdfProcessing.process_pdf_pages,
      PdfProcessing.merge_batch_results, List.filterMap_map]
    rw [show (Except.toOption ∘ fun b => Except.ok
        (PdfProcessing.process_page_batch env b prompt (2 / 5))) =
        (some ∘ fun b => PdfProcessing.process_page_batch env b prompt (2 / 5))
      from rfl]
    rw [List.filterMap_eq_map]
  have hmapped : page_numbers_of ((completion.map (fun b =>
      PdfProcessing.process_page_batch env b prompt (2 / 5))).flatten) =
      (completion.map (fun b => b.map (fun n => n + 1))).flatten := by
    rw [page_numbers_of, List.map_flatten, List.map_map]
    congr 1
    apply List.map_congr_left
    intro b _
    exact core_fst_pages env prompt (2 / 5) b ""
  have hflat2 : ((PdfProcessing.page_batches N bs).map
      (fun b => b.map (fun n => n + 1))).flatten = List.range' 1 N := by
    show ((PdfProcessing.page_batches N bs).map
      (List.map (fun n => n + 1))).flatten = List.range' 1 N
    rw [← List.map_flatten, page_batches_flatten N bs hbs,
      range'_map_add_one]
  have hp : (page_numbers_of
      (PdfProcessing.process_pdf_pages env name prompt completion).pages).Perm
      (List.range' 1 N) := by
    rw [hpages]
    have hsort : (page_numbers_of (PdfProcessing.sortByPage
        ((completion.map (fun b =>
          PdfProcessing.process_page_batch env b prompt (2 / 5))).flatten))).Perm
        (page_numbers_of ((completion.map (fun b =>
          PdfProcessing.process_page_batch env b prompt (2 / 5))).flatten)) :=
      (sortByPage_perm _).map (fun r : PageRecord => r.page_number)
    refine hsort.trans ?_
    rw [hmapped, ← hflat2]
    exact (hperm.map (fun b => b.map (fun n => n + 1))).flatten
  haveI hanti : IsAntisymm Nat (fun a b => a ≤ b) :=
    ⟨fun _ _ h1 h2 => Nat.le_antisymm h1 h2⟩
  have hs1 : List.Sorted (fun a b : Nat => a ≤ b) (page_numbers_of
      (PdfProcessing.process_pdf_pages env name prompt completion).pages) := by
    rw [hpages]
    exact sortByPage_pages_sorted _
  have hs2 : List.Sorted (fun a b : Nat => a ≤ b) (List.range' 1 N) :=
    List.pairwise_le_range' 1 N
  exact List.eq_of_perm_of_sorted hp hs1 hs2

theorem claim1_pages_contiguous_witness :
    0 < 5 ∧
    ((PdfProcessing.page_batches 12 5).reverse).Perm
      (PdfProcessing.page_batches 12 5) ∧
    page_numbers_of (PdfProcessing.process_pdf_pages envOk "doc.pdf" "P"
      ((PdfProcessing.page_batches 12 5).reverse)).pages =
      List.range' 1 12 :=
  ⟨by decide, by decide,
    claim1_pages_contiguous envOk "doc.pdf" "P" 12 5 (by decide)
      ((PdfProcessing.page_batches 12 5).reverse) (by decide)⟩

/-- C5 counterexample: when a batch future raises, the collection loop of
`process_pdf_pages` only logs the error and drops that batch: merging a
failed first batch (pages 1-5) with a successful singleton batch for page
6 yields an output containing only page 6 — the failed batch's pages get
no placeholder records and are silently dropped from the result. -/
theorem claim5_counterexample :
    page_numbers_of (PdfProcessing.merge_batch_results
      [Except.error "boom",
       Except.ok (PdfProcessing.process_page_batch envOk [5] "P" (2 / 5))]) =
      [6] := rfl

/-- C5 amended: placeholder degradation happens one level lower, per
page: `process_page_batch` returns exactly one record per page of its
batch, and a page whose processing raises contributes the placeholder
record (so a page container that becomes unusable degrades every
remaining page of the batch to a placeholder, page by page, and no
batch-level exception arises from page processing).  If a batch future
nevertheless raises, the merge loop logs it and continues with the other
batches, but the failed batch's pages are dropped from the output rather
than represented as placeholders. -/
theorem claim5_amended (env : BatchEnv) (batch : List Nat) (prompt : String)
    (thr : Rat) (n : Nat) (e e2 : String)
    (rs₁ rs₂ : List (Except String (List PageRecord)))
    (hmem : n ∈ batch) (herr : env.loadPage n = Except.error e) :
    page_numbers_of (PdfProcessing.process_page_batch env batch prompt thr) =
      batch.map (fun k => k + 1) ∧
    PdfProcessing.error_placeholder (n + 1) ∈
      PdfProcessing.process_page_batch env batch prompt thr ∧
    PdfProcessing.merge_batch_results (rs₁ ++ Except.error e2 :: rs₂) =
      PdfProcessing.merge_batch_results (rs₁ ++ rs₂) := by
  refine ⟨core_fst_pages env prompt thr batch "",
    core_placeholder_mem env prompt thr batch "" n e hmem herr, ?_⟩
  unfold PdfProcessing.merge_batch_results
  rw [List.filterMap_append, List.filterMap_append, List.filterMap_cons]
  rfl

theorem claim5_amended_witness :
    (1 ∈ [0, 1, 2]) ∧ envFailPage1.loadPage 1 = Except.error "X" ∧
    (page_numbers_of (PdfProcessing.process_page_batch envFailPage1 [0, 1, 2]
      "P" (2 / 5)) = [0, 1, 2].map (fun k => k + 1) ∧
    PdfProcessing.error_placeholder 2 ∈
      PdfProcessing.process_page_batch envFailPage1 [0, 1, 2] "P" (2 / 5) ∧
    PdfProcessing.merge_batch_results
      ([Except.ok []] ++ Except.error "boom" :: [Except.ok []]) =
      PdfProcessing.merge_batch_results ([Except.ok []] ++ [Except.ok []])) :=
  ⟨by decide, rfl,
    claim5_amended envFailPage1 [0, 1, 2] "P" (2 / 5) 1 "X" "boom"
      [Except.ok []] [Except.ok []] (by decide) rfl⟩

/-- C6: if a page loads but its summarization POST fails (timeout or
other request error, which the single-attempt call does not retry), the
page's record carries exactly the defined sentinel error string as its
`text_summary`, and batch processing still returns one record per page
of the batch — nothing propagates to the caller. -/
theorem claim6_sentinel_summary (env : BatchEnv) (batch : List Nat)
    (prompt : String) (thr : Rat) (n : Nat) (page : Page)
    (hmem : n ∈ batch) (hload : env.loadPage n = Except.ok page)
    (hfail : IsFailure (env.sumOutcome n)) :
    summary_for (PdfProcessing.process_page_batch env batch prompt thr)
      (n + 1) = some (LlmInteraction.summarize_error_sentinel (n + 1)) ∧
    page_numbers_of (PdfProcessing.process_page_batch env batch prompt thr) =
      batch.map (fun k => k + 1) :=
  ⟨core_summary_sentinel env prompt thr batch "" n page hmem hload hfail,
    core_fst_pages env prompt thr batch ""⟩

theorem claim6_sentinel_summary_witness :
    (1 ∈ [0, 1, 2]) ∧ envSumTimeout.loadPage 1 = Except.ok plainPage ∧
    IsFailure (envSumTimeout.sumOutcome 1) ∧
    (summary_for (PdfProcessing.process_page_batch envSumTimeout [0, 1, 2]
      "P" (2 / 5)) 2 = some (LlmInteraction.summarize_error_sentinel 2) ∧
    page_numbers_of (PdfProcessing.process_page_batch envSumTimeout [0, 1, 2]
      "P" (2 / 5)) = [0, 1, 2].map (fun k => k + 1)) :=
  ⟨by decide, rfl, Or.inl rfl,
    claim6_sentinel_summary envSumTimeout [0, 1, 2] "P" (2 / 5) 1 plainPage
      (by decide) rfl (Or.inl rfl)⟩

/-- C8: within a batch (a contiguous ascending range of page indices)
whose pages all load, the summarize calls happen sequentially in
ascending page order — the call log's page numbers are exactly
`start+1, ..., start+len` in order — and the `previous_summary` argument
column equals the empty string followed by the returned summaries of the
immediately preceding calls: the chain starts from the empty summary at
the start of every batch and threads each page's returned summary into
the next page's call. -/
theorem claim8_summary_chain (env : BatchEnv) (prompt : String) (thr : Rat)
    (start len : Nat) (hok : loads_ok env (List.range' start len)) :
    call_pages_of (PdfProcessing.summarize_call_log env
      (List.range' start len) prompt thr) = List.range' (start + 1) len ∧
    call_prevs_of (PdfProcessing.summarize_call_log env
      (List.range' start len) prompt thr) =
      ("" :: call_results_of (PdfProcessing.summarize_call_log env
        (List.range' start len) prompt thr)).dropLast := by
  have h := core_call_log env prompt thr (List.range' start len) "" hok
  refine ⟨?_, h.2⟩
  rw [PdfProcessing.summarize_call_log, h.1, range'_map_add_one]

theorem claim8_summary_chain_witness :
    loads_ok envOk (List.range' 0 3) ∧
    (call_pages_of (PdfProcessing.summarize_call_log envOk (List.range' 0 3)
      "P" (2 / 5)) = List.range' 1 3 ∧
    call_prevs_of (PdfProcessing.summarize_call_log envOk (List.range' 0 3)
      "P" (2 / 5)) =
      ("" :: call_results_of (PdfProcessing.summarize_call_log envOk
        (List.range' 0 3) "P" (2 / 5))).dropLast) :=
  ⟨fun n _ => ⟨plainPage, rfl⟩,
    claim8_summary_chain envOk "P" (2 / 5) 0 3 (fun n _ => ⟨plainPage, rfl⟩)⟩

end DocQuest
